import Mathlib

/-!
# Verification of the animal-shelter dashboard data layer

Shallow embedding of the repository's Python modules:

* `src/crud.py`   — `AnimalShelter`, a MongoDB CRUD wrapper;
* `src/utils.py`  — CSV loading, age formatting, dashboard data preparation;
* `src/dashboard.py` — the filter-resolution callback `update_dashboard_filters`.

Mongo documents are modelled as association lists over an abstract BSON value
type; the pandas `DataFrame` is modelled as a list of rows, each row an
association list from column names to cells (a cell is `NaN`, a string, or a
number).  Machine floats of the Python source are modelled by `ℚ`; the few
float constants involved (`4.33`, week counts) are exact enough that rational
arithmetic agrees with the float computation on the inputs considered.
Fallible driver / file-system calls are modelled by an explicit error flag
(`dbError` on the collection, `Option` for the parsed CSV): the Python
`try/except` blocks become `if`/`match` on that flag.
-/

namespace AnimalShelterApp

/-- A BSON value stored in a Mongo document field.  `null` is Python `None`;
strings and numbers cover the dataset's field types. -/
inductive BsonVal where
  | null
  | str (s : String)
  | num (q : ℚ)
  | bool (b : Bool)
deriving DecidableEq, Repr

/-- A Mongo document: an association list from field names to values
(Python `dict`).  Insertion order is significant, as in Python dicts. -/
abbrev Doc := List (String × BsonVal)

/-- A Python value handed to a CRUD method: either a `dict` or some
non-mapping object (its truthiness is irrelevant: every branch that tests it
also tests `isinstance(_, dict)`, which fails). -/
inductive PyObj where
  | dict (d : Doc)
  | other
deriving DecidableEq, Repr

/-- `isinstance(x, dict)` -/
def PyObj.isDict : PyObj → Bool
  | .dict _ => true
  | .other => false

/-- Python truthiness of a CRUD argument: a `dict` is truthy iff non-empty.
(`other` is modelled as truthy; in `create`/`read` the `isinstance` conjunct
rejects it anyway.) -/
def PyObj.truthy : PyObj → Bool
  | .dict d => !d.isEmpty
  | .other => true

/-- The state of the Mongo collection used by `AnimalShelter`, together with
a flag saying whether the underlying driver raises on any operation
(connection failure, malformed query, …).  `crud.py` wraps every driver call
in `try/except`, so the flag selects the `except` branch. -/
structure Collection where
  docs : List Doc
  dbError : Bool
deriving DecidableEq, Repr

/-- First value stored under key `k` in document `d` (Python `doc[k]`). -/
def docFind (d : Doc) (k : String) : Option BsonVal :=
  (d.find? (fun kv => kv.1 == k)).map (·.2)

/-- Mongo equality match: a document matches a query dict iff every
`(field, value)` pair of the query occurs in the document.
(The repository only ever issues plain equality queries; operators such as
`$gt` are not used and not modelled.)  The empty query matches every
document. -/
def matchesDoc (q : Doc) (d : Doc) : Bool :=
  q.all (fun kv => docFind d kv.1 == some kv.2)

/-- `$set` of a single field: replace the value under an existing key in
place, or append the new field (Mongo adds missing fields at the end). -/
def setField (d : Doc) (k : String) (v : BsonVal) : Doc :=
  if d.any (fun kv => kv.1 == k) then
    d.map (fun kv => if kv.1 == k then (kv.1, v) else kv)
  else
    d ++ [(k, v)]

/-- Apply `{"$set": new_values}` to a document: set every field of
`new_values` in turn. -/
def applySet (d : Doc) (vals : Doc) : Doc :=
  vals.foldl (fun acc kv => setField acc kv.1 kv.2) d

/-- `update_one`: apply `$set` to the first document matching the query.
Returns the new document list and Mongo's `modified_count`, which counts
documents actually changed (a match that `$set` leaves identical counts 0). -/
def updateOneDocs (q vals : Doc) : List Doc → List Doc × Nat
  | [] => ([], 0)
  | d :: rest =>
    if matchesDoc q d then
      (applySet d vals :: rest, if applySet d vals ≠ d then 1 else 0)
    else
      let r := updateOneDocs q vals rest
      (d :: r.1, r.2)

/-- `update_many`: apply `$set` to every document matching the query;
`modified_count` counts the matches actually changed. -/
def updateManyDocs (q vals : Doc) (docs : List Doc) : List Doc × Nat :=
  (docs.map (fun d => if matchesDoc q d then applySet d vals else d),
   (docs.filter (fun d => matchesDoc q d && applySet d vals ≠ d)).length)

/-- `delete_one`: remove the first document matching the query; the count is
the number of documents removed (0 or 1). -/
def deleteOneDocs (q : Doc) : List Doc → List Doc × Nat
  | [] => ([], 0)
  | d :: rest =>
    if matchesDoc q d then (rest, 1)
    else
      let r := deleteOneDocs q rest
      (d :: r.1, r.2)

/-- `delete_many`: remove every document matching the query. -/
def deleteManyDocs (q : Doc) (docs : List Doc) : List Doc × Nat :=
  (docs.filter (fun d => !matchesDoc q d),
   (docs.filter (fun d => matchesDoc q d)).length)

namespace AnimalShelter

/-- `AnimalShelter.create(data)` (`crud.py` lines 35–55):
`if data and isinstance(data, dict)` — a non-empty dict is inserted
(`insert_one`, acknowledged `True`); a driver exception yields `False`;
anything falsy or non-dict yields `False` with no insertion. -/
def create (c : Collection) (data : PyObj) : Collection × Bool :=
  match data with
  | .dict d =>
    if !d.isEmpty then
      if c.dbError then (c, false)
      else ({ c with docs := c.docs ++ [d] }, true)
    else (c, false)
  | .other => (c, false)

/-- `AnimalShelter.read(query)` (`crud.py` lines 57–76):
a truthy dict is passed to `collection.find`; the matching documents are
returned, `[]` on a driver exception; a falsy or non-dict query yields `[]`
without touching the collection. -/
def read (c : Collection) (query : PyObj) : List Doc :=
  match query with
  | .dict q =>
    if !q.isEmpty then
      if c.dbError then []
      else c.docs.filter (fun d => matchesDoc q d)
    else []
  | .other => []

/-- The null-cleaning loop of `read_all` (`crud.py` lines 90–93):
`for key, value in doc.items(): if value is None: doc[key] = ""`. -/
def cleanDoc (d : Doc) : Doc :=
  d.map (fun kv => if kv.2 = BsonVal.null then (kv.1, BsonVal.str "") else kv)

/-- `AnimalShelter.read_all()` (`crud.py` lines 78–98): `find({})` retrieves
every document, nulls are replaced by `""`; a driver exception yields `[]`. -/
def read_all (c : Collection) : List Doc :=
  if c.dbError then []
  else (c.docs.map cleanDoc)

/-- `AnimalShelter.update(query, new_values, multiple)` (`crud.py` lines
100–127): both arguments must be dicts (empty allowed — no truthiness test);
`multiple` selects `update_many` vs `update_one`; the `modified_count` is
returned, 0 on a driver exception or invalid arguments. -/
def update (c : Collection) (query new_values : PyObj) (multiple : Bool) :
    Collection × Nat :=
  match query, new_values with
  | .dict q, .dict vals =>
    if c.dbError then (c, 0)
    else
      let r := if multiple then updateManyDocs q vals c.docs
               else updateOneDocs q vals c.docs
      ({ c with docs := r.1 }, r.2)
  | _, _ => (c, 0)

/-- `AnimalShelter.delete(query, multiple)` (`crud.py` lines 129–154):
the query must be a dict (empty allowed); `multiple` selects `delete_many`
vs `delete_one`; the `deleted_count` is returned, 0 on a driver exception
or a non-dict query. -/
def delete (c : Collection) (query : PyObj) (multiple : Bool) :
    Collection × Nat :=
  match query with
  | .dict q =>
    if c.dbError then (c, 0)
    else
      let r := if multiple then deleteManyDocs q c.docs
               else deleteOneDocs q c.docs
      ({ c with docs := r.1 }, r.2)
  | .other => (c, 0)

end AnimalShelter

/-! ## The pandas model

A `DataFrame` is identified with its list of rows; a row is an association
list from column names to cells.  A cell is `NaN`, a string, or a number
(the dataset columns are string- or float-typed).  Column membership is read
off the rows.  -/

/-- A pandas cell: `NaN` (missing), a string, or a number. -/
inductive Cell where
  | na
  | str (s : String)
  | num (q : ℚ)
deriving DecidableEq, Repr

/-- `pd.isna` on a cell. -/
def Cell.isNa : Cell → Bool
  | .na => true
  | _ => false

/-- A dataframe row: column name to cell. -/
abbrev Row := List (String × Cell)

/-- A dataframe, identified with its list of rows. -/
abbrev DataFrame := List Row

/-- The cell of row `r` in column `c`; a column absent from the row reads as
`NaN`. -/
def getCell (r : Row) (c : String) : Cell :=
  ((r.find? (fun kv => kv.1 == c)).map (·.2)).getD Cell.na

/-- `c in df.columns`: some row carries the column. -/
def hasColB (df : DataFrame) (c : String) : Bool :=
  df.any (fun r => r.any (fun kv => kv.1 == c))

/-- `df.drop(c, axis=1)`: remove the column from every row. -/
def dropColDf (df : DataFrame) (c : String) : DataFrame :=
  df.map (fun r => r.filter (fun kv => kv.1 != c))

/-- Write cell `v` into column `c` of a row, appending the column when it is
new (a pandas column assignment creates or overwrites the column). -/
def setCellRow (r : Row) (c : String) (v : Cell) : Row :=
  if r.any (fun kv => kv.1 == c) then
    r.map (fun kv => if kv.1 == c then (kv.1, v) else kv)
  else
    r ++ [(c, v)]

/-- `df[c] = df[c].map f` over an existing column: apply `f` to the cell of
column `c` in every row. -/
def mapCol (df : DataFrame) (c : String) (f : Cell → Cell) : DataFrame :=
  df.map (fun r => r.map (fun kv => if kv.1 == c then (kv.1, f kv.2) else kv))

/-! ## `utils.py` -/

/-- `df.dropna(subset=['location_lat', 'location_long'])` (`utils.py`
line 20): keep the rows where both coordinates are present and not `NaN`. -/
def dropnaCoords (df : DataFrame) : DataFrame :=
  df.filter (fun r =>
    !(getCell r "location_lat").isNa && !(getCell r "location_long").isNa)

/-- `load_animal_data()` (`utils.py` lines 5–39).  The argument models the
outcome of `pd.read_csv` on the fixed path: `none` is any exception raised
while reading or parsing the file (the `except` branch returns an empty
frame), `some df` the parsed table.  After dropping rows without
coordinates and the auto-generated `Unnamed: 0` index column, the logging
lines read the `animal_type` column (and the `breed` column when an
`Other`-typed row occurs); with this row-based frame model a missing column
raises `KeyError` into the same handler. -/
def load_animal_data (parsed : Option DataFrame) : DataFrame :=
  match parsed with
  | none => []
  | some df =>
    let df1 := dropnaCoords df
    let df2 := if hasColB df1 "Unnamed: 0" then dropColDf df1 "Unnamed: 0" else df1
    if !hasColB df2 "animal_type" then []
    else if (df2.any (fun r => getCell r "animal_type" == Cell.str "Other"))
            && !hasColB df2 "breed" then []
    else df2

/-- Python `int(_)`: truncation toward zero, on a rational modelling the
float. -/
def pyint (q : ℚ) : ℤ :=
  if q < 0 then ⌈q⌉ else ⌊q⌋

/-- `convert_age_to_readable(weeks)` (`utils.py` lines 71–96).  `none`
models a missing (`NaN`) age, `some w` the float age as a rational.
Python `weeks // 52` is the floor; `int(weeks % 52)` truncates the
nonnegative remainder `weeks - 52 * (weeks // 52)`; `remaining_weeks // 4.33`
is the floor of the division by the float literal `4.33`, modelled exactly
as `433 / 100` (on the integer numerators `0 ≤ remaining_weeks < 52` the
float and rational floors agree). -/
def convert_age_to_readable (weeks : Option ℚ) : String :=
  match weeks with
  | none => "Unknown"
  | some w =>
    if w = 0 then "Unknown"
    else
      let years : ℤ := ⌊w / 52⌋
      let remaining_weeks : ℤ := pyint (w - 52 * (⌊w / 52⌋ : ℚ))
      let months : ℤ := ⌊(remaining_weeks : ℚ) / (433 / 100)⌋
      if 0 < years then
        if 0 < months then
          toString years ++ " year" ++ (if years ≠ 1 then "s" else "") ++ ", " ++
            toString months ++ " month" ++ (if months ≠ 1 then "s" else "")
        else
          toString years ++ " year" ++ (if years ≠ 1 then "s" else "")
      else if 0 < months then
        toString months ++ " month" ++ (if months ≠ 1 then "s" else "")
      else
        toString (pyint w) ++ " week" ++ (if w ≠ 1 then "s" else "")

/-- The age cell fed to `convert_age_to_readable` by
`display_df['age_upon_outcome_in_weeks'].apply(...)`: a number maps to
itself, `NaN` to the missing case.  The dataset age column is float-typed;
a string cell would raise `TypeError` inside the Python arithmetic and is
totalised here through the missing case. -/
def cellAgeVal : Cell → Option ℚ
  | .num q => some q
  | _ => none

/-- `display_df['age_readable'] = display_df['age_upon_outcome_in_weeks']
.apply(convert_age_to_readable)` (`utils.py` line 116). -/
def addAgeReadable (df : DataFrame) : DataFrame :=
  df.map (fun r =>
    setCellRow r "age_readable"
      (Cell.str (convert_age_to_readable (cellAgeVal (getCell r "age_upon_outcome_in_weeks")))))

/-- `columns_to_clean` (`utils.py` line 119). -/
def columns_to_clean : List String :=
  ["name", "animal_type", "breed", "sex_upon_outcome", "color", "outcome_type"]

/-- One pass of the cleaning loop (`utils.py` lines 120–123): when the
column exists, `fillna('Unknown')` then `replace('', 'Unknown')`. -/
def cleanOneColumn (df : DataFrame) (c : String) : DataFrame :=
  if hasColB df c then
    mapCol (mapCol df c (fun v => if v.isNa then Cell.str "Unknown" else v)) c
      (fun v => if v == Cell.str "" then Cell.str "Unknown" else v)
  else df

/-- The loop over `columns_to_clean` (`utils.py` lines 120–123). -/
def cleanDisplayColumns (df : DataFrame) : DataFrame :=
  columns_to_clean.foldl cleanOneColumn df

/-- `.str.replace('*', '', regex=False)` on a cell: string cells lose every
asterisk; pandas `.str` methods turn non-string cells into `NaN`. -/
def strReplaceStar : Cell → Cell
  | .str s => .str (s.replace "*" "")
  | _ => .na

/-- `.str.strip()` on a cell (Lean `String.trim` removes the same leading
and trailing ASCII whitespace on this dataset). -/
def strStrip : Cell → Cell
  | .str s => .str s.trim
  | _ => .na

/-- The name-cleanup block (`utils.py` lines 126–130): when a `name` column
exists, remove asterisks, then strip whitespace. -/
def cleanNameColumn (df : DataFrame) : DataFrame :=
  if hasColB df "name" then
    mapCol (mapCol df "name" strReplaceStar) "name" strStrip
  else df

/-! ### `prepare_dashboard_data`, with explicit object identity

`prepare_dashboard_data` mutates a frame object in place (column
assignments), so the embedding makes object identity explicit: a heap of
frame objects addressed by index.  `df.copy()` allocates a fresh object at
the end of the heap; each column assignment rewrites the object in place. -/

/-- The heap of live dataframe objects, addressed by index. -/
abbrev Heap := List DataFrame

/-- Dereference a frame object. -/
def getRef (h : Heap) (r : Nat) : DataFrame :=
  (h[r]?).getD []

/-- Overwrite a frame object in place. -/
def setRef (h : Heap) (r : Nat) (df : DataFrame) : Heap :=
  h.set r df

/-- `prepare_dashboard_data(df)` (`utils.py` lines 99–132) on the heap:
an empty frame is returned as is (the same object); otherwise
`display_df = df.copy()` allocates a fresh object, the three formatting
blocks (age column, display-column cleaning, name cleanup) mutate that
copy in place, and the copy is returned. -/
def prepare_dashboard_data (h : Heap) (r : Nat) : Heap × Nat :=
  let df := getRef h r
  if df.isEmpty then (h, r)
  else
    let rc := h.length
    let h1 := h ++ [df]
    let h2 := setRef h1 rc (addAgeReadable (getRef h1 rc))
    let h3 := setRef h2 rc (cleanDisplayColumns (getRef h2 rc))
    let h4 := setRef h3 rc (cleanNameColumn (getRef h3 rc))
    (h4, rc)

/-! ## `dashboard.py`: the filter callback

`update_dashboard_filters` (`dashboard.py` lines 467–565) receives the
current control values and the id of the component that triggered the
callback (`dash.callback_context`; `none` when nothing triggered), and
returns the table data plus the new control state.  Dropdown values are
strings; a cleared dropdown delivers Python `None`, modelled by the empty
string (both are falsy and equal to no animal type or breed).  The age
range delivers a `[min, max]` pair or `None`.  The body is total, so the
`except` fallback of lines 559–565 is unreachable in the model. -/

/-- The tuple returned by the callback: table data, animal-type value,
breed value, breed dropdown options (label, value), age-range value. -/
structure FilterOutput where
  data : DataFrame
  animalTypeVal : String
  breedVal : String
  breedOptions : List (String × String)
  ageRange : Option (ℚ × ℚ)
deriving DecidableEq, Repr

/-- A breed cell retained by `df['breed'].dropna()`: the breed column is
string-typed, `NaN` is dropped (`sorted` over mixed cell types would raise
and is not modelled). -/
def cellStrVal : Cell → Option String
  | .str s => some s
  | _ => none

/-- The non-null breed values of a frame, in row order
(`df['breed'].dropna()`). -/
def breedVals (df : DataFrame) : List String :=
  df.filterMap (fun r => cellStrVal (getCell r "breed"))

/-- Lexicographic comparison of character lists by code point: the order
Python uses to compare `str` values. -/
def charListLe : List Char → List Char → Bool
  | [], _ => true
  | _ :: _, [] => false
  | a :: as, b :: bs =>
    if a.val < b.val then true
    else if b.val < a.val then false
    else charListLe as bs

/-- `s <= t` on Python strings: code-point lexicographic order. -/
def strLe (s t : String) : Bool :=
  charListLe s.data t.data

/-- Insert into a sorted list of strings (code-point order, as Python
`sorted` on `str`). -/
def insertStr (s : String) : List String → List String
  | [] => [s]
  | t :: ts => if strLe s t then s :: t :: ts else t :: insertStr s ts

/-- `sorted(_)` on strings: insertion sort, ascending code-point order. -/
def sortStrs : List String → List String
  | [] => []
  | s :: ss => insertStr s (sortStrs ss)

/-- `pandas.Series.unique()`: distinct values, first occurrence first. -/
def uniqueFirst (xs : List String) : List String :=
  xs.foldl (fun acc x => if acc.contains x then acc else acc ++ [x]) []

/-- `sorted(df['breed'].dropna().unique())`. -/
def sortedUniqueBreeds (df : DataFrame) : List String :=
  sortStrs (uniqueFirst (breedVals df))

/-- `df['animal_type'] == t` on a row. -/
def rowTypeIs (t : String) (r : Row) : Bool :=
  getCell r "animal_type" == Cell.str t

/-- `df['breed'] == b` on a row. -/
def rowBreedIs (b : String) (r : Row) : Bool :=
  getCell r "breed" == Cell.str b

/-- `df['age_upon_outcome_in_weeks'] <= x` on a row; a pandas comparison
with `NaN` is false. -/
def rowAgeLe (x : ℚ) (r : Row) : Bool :=
  match getCell r "age_upon_outcome_in_weeks" with
  | .num q => q ≤ x
  | _ => false

/-- `df['age_upon_outcome_in_weeks'] > x` on a row; false on `NaN`. -/
def rowAgeGt (x : ℚ) (r : Row) : Bool :=
  match getCell r "age_upon_outcome_in_weeks" with
  | .num q => x < q
  | _ => false

/-- `df['age_upon_outcome_in_weeks'] >= x` on a row; false on `NaN`. -/
def rowAgeGe (x : ℚ) (r : Row) : Bool :=
  match getCell r "age_upon_outcome_in_weeks" with
  | .num q => x ≤ q
  | _ => false

/-- `df['outcome_type'] == 'Adoption'` on a row. -/
def rowIsAdoption (r : Row) : Bool :=
  getCell r "outcome_type" == Cell.str "Adoption"

/-- The breed dropdown options built from a breed list (`dashboard.py`
lines 499–500 and 510–511): `All Breeds` first, then one option per
breed. -/
def breedOptionsOf (breeds : List String) : List (String × String) :=
  ("All Breeds", "All") :: breeds.map (fun b => (b, b))

/-- `update_dashboard_filters(animal_type, selected_breed, age_range, …)`
(`dashboard.py` lines 467–557), with the full dataset `df` and the
triggering component id as explicit arguments.  The branches mirror the
source: the reset branch first; then the breed options, computed from the
incoming `animal_type` before any quick-filter button rewrites it; the
breed reset on an `animal-type-filter` trigger; the quick-filter branches;
and the conjunctive type, breed and age-range filters (the age-range filter
is skipped after an age quick-filter button). -/
def update_dashboard_filters (df : DataFrame) (animal_type selected_breed : String)
    (age_range : Option (ℚ × ℚ)) (button_id : Option String) : FilterOutput :=
  if button_id = some "btn-reset" then
    { data := df
      animalTypeVal := "All"
      breedVal := "All"
      breedOptions := breedOptionsOf (sortedUniqueBreeds df)
      ageRange := some (0, 520) }
  else
    let available_breeds :=
      if animal_type = "All" then sortedUniqueBreeds df
      else sortedUniqueBreeds (df.filter (rowTypeIs animal_type))
    let breed_options := breedOptionsOf available_breeds
    let selected_breed :=
      if button_id = some "animal-type-filter" then "All" else selected_breed
    let step :=
      if button_id = some "btn-young" then
        (df.filter (rowAgeLe 52), "All", "All")
      else if button_id = some "btn-adult" then
        (df.filter (fun r => rowAgeGt 52 r && rowAgeLe 312 r), "All", "All")
      else if button_id = some "btn-senior" then
        (df.filter (rowAgeGt 312), "All", "All")
      else if button_id = some "btn-available" then
        (df.filter rowIsAdoption, "All", "All")
      else (df, animal_type, selected_breed)
    let df1 := step.1
    let animal_type := step.2.1
    let selected_breed := step.2.2
    let df2 :=
      if animal_type ≠ "" ∧ animal_type ≠ "All" then
        df1.filter (rowTypeIs animal_type)
      else df1
    let df3 :=
      if selected_breed ≠ "" ∧ selected_breed ≠ "All" then
        df2.filter (rowBreedIs selected_breed)
      else df2
    let df4 :=
      match age_range with
      | some (mn, mx) =>
        if button_id ≠ some "btn-young" ∧ button_id ≠ some "btn-adult" ∧
            button_id ≠ some "btn-senior" then
          df3.filter (fun r => rowAgeGe mn r && rowAgeLe mx r)
        else df3
      | none => df3
    { data := df4
      animalTypeVal := animal_type
      breedVal := selected_breed
      breedOptions := breed_options
      ageRange := age_range }

/-! ## Specification-side definitions

Written from the wording of the specification, to be compared with the
source embeddings above. -/

/-- From the spec wording: the breed dropdown options for an animal-type
value `t` are `All Breeds` followed by exactly the sorted distinct non-null
breeds present among the dataset records whose animal type equals `t`,
with `All` selecting every record. -/
def spec_breedOptionsFor (df : DataFrame) (t : String) : List (String × String) :=
  ("All Breeds", "All") ::
    (sortStrs (uniqueFirst (breedVals
      (if t = "All" then df else df.filter (rowTypeIs t))))).map (fun b => (b, b))

/-- From the spec wording: the age string rendered from a year count, a
month count and the raw week value (the week value only appears in the
fallback branch for ages under a month). -/
def spec_ageRender (years months : ℤ) (w : ℚ) : String :=
  if 0 < years then
    if 0 < months then
      toString years ++ " year" ++ (if years ≠ 1 then "s" else "") ++ ", " ++
        toString months ++ " month" ++ (if months ≠ 1 then "s" else "")
    else
      toString years ++ " year" ++ (if years ≠ 1 then "s" else "")
  else if 0 < months then
    toString months ++ " month" ++ (if months ≠ 1 then "s" else "")
  else
    toString (pyint w) ++ " week" ++ (if w ≠ 1 then "s" else "")

/-- The number of positions at which two document lists differ: the number
of records actually modified by an update that rewrites the list. -/
def changedCount (old new : List Doc) : Nat :=
  ((old.zip new).filter (fun p => p.1 ≠ p.2)).length

/-! ## Concrete fixtures

Small concrete states used to instantiate the theorems below. -/

/-- A two-animal dataset: a young dog and a senior cat. -/
def dfW : DataFrame :=
  [[("animal_type", Cell.str "Dog"), ("breed", Cell.str "Lab"),
    ("age_upon_outcome_in_weeks", Cell.num 30)],
   [("animal_type", Cell.str "Cat"), ("breed", Cell.str "Siamese"),
    ("age_upon_outcome_in_weeks", Cell.num 400)]]

/-- The senior row of `dfW`. -/
def rowSenior : Row :=
  [("animal_type", Cell.str "Cat"), ("breed", Cell.str "Siamese"),
   ("age_upon_outcome_in_weeks", Cell.num 400)]

/-- A raw parsed CSV: one row with coordinates, one without. -/
def rawW : DataFrame :=
  [[("location_lat", Cell.num 30), ("location_long", Cell.num (-97)),
    ("animal_type", Cell.str "Dog")],
   [("location_lat", Cell.na), ("location_long", Cell.num 5),
    ("animal_type", Cell.str "Cat")]]

/-- The coordinate-complete row of `rawW`. -/
def rowCoordW : Row :=
  [("location_lat", Cell.num 30), ("location_long", Cell.num (-97)),
   ("animal_type", Cell.str "Dog")]

/-- A healthy one-document collection whose document has a null field. -/
def cW : Collection :=
  { docs := [[("name", BsonVal.null), ("breed", BsonVal.str "Lab")]]
    dbError := false }

/-- A healthy two-document collection. -/
def cU : Collection :=
  { docs := [[("name", BsonVal.str "A")], [("name", BsonVal.str "B")]]
    dbError := false }

/-- A query and replacement values over `cU`. -/
def qU : Doc := [("name", BsonVal.str "A")]

/-- Replacement values over `cU`. -/
def valsU : Doc := [("name", BsonVal.str "Z")]

/-- A collection whose driver raises on every operation. -/
def cE : Collection :=
  { docs := [], dbError := true }

/-- A one-object heap holding `dfW`. -/
def hW : Heap := [dfW]

/-! ## Theorems -/

/-- A row passing the `> x` age comparison carries a numeric age above
`x`. -/
theorem rowAgeGt_exists {x : ℚ} {r : Row} (h : rowAgeGt x r = true) :
    ∃ q : ℚ, getCell r "age_upon_outcome_in_weeks" = Cell.num q ∧ x < q := by
  unfold rowAgeGt at h
  cases hc : getCell r "age_upon_outcome_in_weeks" with
  | num q => rw [hc] at h; exact ⟨q, rfl, of_decide_eq_true h⟩
  | na => rw [hc] at h; cases h
  | str s => rw [hc] at h; cases h

/-- C4: convert_age_to_readable returns "Unknown" for input 0 and for
missing input, "1 year" for 52, "1 year, 1 month" for 60; in general the
rendered string is built from `⌊weeks / 52⌋` years and
`⌊int(weeks mod 52) / 4.33⌋` months. -/
theorem convert_age_readable_values :
    convert_age_to_readable none = "Unknown" ∧
    convert_age_to_readable (some 0) = "Unknown" ∧
    convert_age_to_readable (some 52) = "1 year" ∧
    convert_age_to_readable (some 60) = "1 year, 1 month" ∧
    ∀ w : ℚ, w ≠ 0 →
      convert_age_to_readable (some w) =
        spec_ageRender ⌊w / 52⌋
          ⌊(pyint (w - 52 * (⌊w / 52⌋ : ℚ)) : ℚ) / (433 / 100)⌋ w := by
  have h52 : convert_age_to_readable (some 52) = "1 year" := by
    unfold convert_age_to_readable
    norm_num [pyint]
    decide
  have h60 : convert_age_to_readable (some 60) = "1 year, 1 month" := by
    unfold convert_age_to_readable
    norm_num [pyint]
    decide
  refine ⟨rfl, by decide, h52, h60, ?_⟩
  intro w hw
  unfold convert_age_to_readable spec_ageRender
  simp [hw]

/-- Witness for C4 at `weeks = 60`. -/
theorem convert_age_readable_values_witness :
    convert_age_to_readable (some 60) =
      spec_ageRender ⌊(60 : ℚ) / 52⌋
        ⌊(pyint ((60 : ℚ) - 52 * (⌊(60 : ℚ) / 52⌋ : ℚ)) : ℚ) / (433 / 100)⌋ 60 :=
  convert_age_readable_values.2.2.2.2 60 (by norm_num)

/-- C5: triggered by the reset button, the callback returns the full
dataset as table data together with the default control values: animal
type `All`, breed `All`, age range `[0, 520]`. -/
theorem reset_restores_defaults (df : DataFrame) (t b : String) (ar : Option (ℚ × ℚ)) :
    (update_dashboard_filters df t b ar (some "btn-reset")).data = df ∧
    (update_dashboard_filters df t b ar (some "btn-reset")).animalTypeVal = "All" ∧
    (update_dashboard_filters df t b ar (some "btn-reset")).breedVal = "All" ∧
    (update_dashboard_filters df t b ar (some "btn-reset")).ageRange = some (0, 520) := by
  unfold update_dashboard_filters
  simp

/-- C3: triggered by the senior quick-filter button, every returned record
has a numeric `age_upon_outcome_in_weeks` strictly greater than 312,
whatever the current animal-type, breed and age-range control values. -/
theorem senior_quick_filter_age (df : DataFrame) (t b : String) (ar : Option (ℚ × ℚ))
    (r : Row) (hr : r ∈ (update_dashboard_filters df t b ar (some "btn-senior")).data) :
    ∃ q : ℚ, getCell r "age_upon_outcome_in_weeks" = Cell.num q ∧ 312 < q := by
  have hdata : (update_dashboard_filters df t b ar (some "btn-senior")).data =
      df.filter (rowAgeGt 312) := by
    cases ar with
    | none => rfl
    | some p => cases p; rfl
  rw [hdata] at hr
  exact rowAgeGt_exists (List.mem_filter.1 hr).2

/-- Witness for C3: the senior cat of `dfW` survives the senior quick
filter with dog-specific control values. -/
theorem senior_quick_filter_age_witness :
    ∃ q : ℚ, getCell rowSenior "age_upon_outcome_in_weeks" = Cell.num q ∧ 312 < q :=
  senior_quick_filter_age dfW "Dog" "Lab" (some (0, 100)) rowSenior (by decide)

/-- C2 counterexample: triggered by the young quick-filter button with
`Dog` selected, the returned animal-type value is `All`, but the returned
breed options are computed from `Dog`: they are not the options for the
animal-type value the callback returns. -/
theorem breed_options_returned_type_cex :
    (update_dashboard_filters dfW "Dog" "All" (some (0, 520)) (some "btn-young")).breedOptions ≠
      spec_breedOptionsFor dfW
        ((update_dashboard_filters dfW "Dog" "All" (some (0, 520)) (some "btn-young")).animalTypeVal) := by
  decide

/-- C2 (amended): the breed options returned by the callback consist of
`All Breeds` followed by exactly the sorted distinct non-null breeds among
records whose animal type equals the animal-type value the callback
received as input — for a reset trigger, the value `All` — even when a
quick-filter button resets the returned animal-type value to `All`. -/
theorem breed_options_from_input_type (df : DataFrame) (t b : String)
    (ar : Option (ℚ × ℚ)) (btn : Option String) :
    (update_dashboard_filters df t b ar btn).breedOptions =
      spec_breedOptionsFor df (if btn = some "btn-reset" then "All" else t) := by
  by_cases hbtn : btn = some "btn-reset"
  · rw [if_pos hbtn]
    subst hbtn
    simp [update_dashboard_filters, spec_breedOptionsFor, sortedUniqueBreeds,
      breedOptionsOf]
  · rw [if_neg hbtn]
    unfold update_dashboard_filters
    rw [if_neg hbtn]
    by_cases ht : t = "All" <;>
      simp [spec_breedOptionsFor, sortedUniqueBreeds, breedOptionsOf, ht]

/-- C1: read_all never returns a null field value: every field that is null
in the stored document comes back as the empty string, and every other
field value comes back unchanged. -/
theorem read_all_null_free (c : Collection) :
    (∀ d ∈ AnimalShelter.read_all c, ∀ kv ∈ d, kv.2 ≠ BsonVal.null) ∧
    (c.dbError = false →
      ∀ i : Nat, (AnimalShelter.read_all c)[i]? =
        (c.docs[i]?).map (fun d => d.map (fun kv =>
          (kv.1, if kv.2 = BsonVal.null then BsonVal.str "" else kv.2)))) := by
  have hfun : (fun kv : String × BsonVal =>
      if kv.2 = BsonVal.null then (kv.1, BsonVal.str "") else kv) =
      (fun kv : String × BsonVal =>
        (kv.1, if kv.2 = BsonVal.null then BsonVal.str "" else kv.2)) := by
    funext kv
    by_cases h0 : kv.2 = BsonVal.null <;> simp [h0]
  constructor
  · intro d hd kv hkv
    unfold AnimalShelter.read_all at hd
    by_cases he : c.dbError
    · simp [he] at hd
    · simp [he] at hd
      obtain ⟨d0, _, rfl⟩ := hd
      unfold AnimalShelter.cleanDoc at hkv
      obtain ⟨kv0, _, rfl⟩ := List.mem_map.1 hkv
      by_cases h0 : kv0.2 = BsonVal.null <;> simp [h0]
  · intro he i
    unfold AnimalShelter.read_all
    simp only [he, Bool.false_eq_true, if_false, List.getElem?_map]
    cases c.docs[i]? with
    | none => rfl
    | some d => simp [AnimalShelter.cleanDoc, hfun]

/-- Witness for C1: the null name field of the document of `cW` comes back
as the empty string, not null. -/
theorem read_all_null_free_witness : BsonVal.str "" ≠ BsonVal.null :=
  (read_all_null_free cW).1 [("name", BsonVal.str ""), ("breed", BsonVal.str "Lab")]
    (by decide) ("name", BsonVal.str "") (by decide)

/-- C7: every operation fails soft.  A non-mapping argument makes `create`
return `False`, `read` return `[]`, `update` and `delete` return `0`, all
leaving the collection untouched; a raising driver produces the same
defaults for valid dict arguments, including `read_all` returning `[]`. -/
theorem crud_fail_soft (c ce : Collection) (x y : PyObj) (m : Bool) (d q vals : Doc)
    (hx : x.isDict = false) (he : ce.dbError = true) :
    AnimalShelter.create c x = (c, false) ∧
    AnimalShelter.read c x = [] ∧
    AnimalShelter.update c x y m = (c, 0) ∧
    AnimalShelter.update c y x m = (c, 0) ∧
    AnimalShelter.delete c x m = (c, 0) ∧
    AnimalShelter.create ce (PyObj.dict d) = (ce, false) ∧
    AnimalShelter.read ce (PyObj.dict q) = [] ∧
    AnimalShelter.read_all ce = [] ∧
    AnimalShelter.update ce (PyObj.dict q) (PyObj.dict vals) m = (ce, 0) ∧
    AnimalShelter.delete ce (PyObj.dict q) m = (ce, 0) := by
  cases x with
  | dict dd => simp [PyObj.isDict] at hx
  | other =>
    refine ⟨rfl, rfl, ?_, ?_, rfl, ?_, ?_, ?_, ?_, ?_⟩
    · cases y <;> rfl
    · cases y <;> rfl
    · cases d with
      | nil => rfl
      | cons hd tl => simp [AnimalShelter.create, he]
    · cases q with
      | nil => rfl
      | cons hd tl => simp [AnimalShelter.read, he]
    · simp [AnimalShelter.read_all, he]
    · simp [AnimalShelter.update, he]
    · simp [AnimalShelter.delete, he]

/-- Witness for C7: a raising driver makes `read_all` return the empty
list. -/
theorem crud_fail_soft_witness : AnimalShelter.read_all cE = [] :=
  (crud_fail_soft cU cE PyObj.other PyObj.other true [] [] [] rfl rfl).2.2.2.2.2.2.2.1

/-- C9: the empty dict, though mapping-typed, is falsy, so `read` and
`create` reject it without touching the collection; `update` and `delete`
accept it as the match-everything query: `update(…, multiple=True)` applies
the `$set` to every document and `delete(…, multiple=True)` removes every
document. -/
theorem empty_dict_crud (c : Collection) (vals : Doc) (he : c.dbError = false) :
    AnimalShelter.create c (PyObj.dict []) = (c, false) ∧
    AnimalShelter.read c (PyObj.dict []) = [] ∧
    (AnimalShelter.update c (PyObj.dict []) (PyObj.dict vals) true).1.docs =
      c.docs.map (fun d => applySet d vals) ∧
    AnimalShelter.delete c (PyObj.dict []) true = ({ c with docs := [] }, c.docs.length) := by
  refine ⟨rfl, rfl, ?_, ?_⟩
  · simp [AnimalShelter.update, updateManyDocs, he, matchesDoc]
  · simp [AnimalShelter.delete, deleteManyDocs, he, matchesDoc]

/-- Witness for C9: `delete` with the empty query empties `cU` and reports
both documents deleted. -/
theorem empty_dict_crud_witness :
    AnimalShelter.delete cU (PyObj.dict []) true = ({ cU with docs := [] }, cU.docs.length) :=
  (empty_dict_crud cU valsU rfl).2.2.2

/-- A cell whose `isNa` test is false is not the `NaN` cell. -/
theorem isNa_false_ne {cell : Cell} (h : cell.isNa = false) : cell ≠ Cell.na := by
  cases cell <;> simp_all [Cell.isNa]

/-- Reading a column other than the dropped one is unaffected by
`df.drop(c, axis=1)` on a row. -/
theorem getCell_dropCol_ne (c col : String) (hne : col ≠ c) (r : Row) :
    getCell (r.filter (fun kv => kv.1 != c)) col = getCell r col := by
  induction r with
  | nil => rfl
  | cons kv tl ih =>
    by_cases hk : kv.1 = c
    · have h1 : (kv.1 != c) = false := by simp [hk]
      have h2 : (kv.1 == col) = false := by
        rw [hk]
        exact beq_eq_false_iff_ne.mpr hne.symm
      rw [show (kv :: tl).filter (fun kv => kv.1 != c) = tl.filter (fun kv => kv.1 != c) by
        simp [List.filter_cons, h1]]
      rw [ih]
      unfold getCell
      rw [List.find?_cons_of_neg _ (by simp [h2])]
    · have h1 : (kv.1 != c) = true := by simp [hk]
      rw [show (kv :: tl).filter (fun kv => kv.1 != c) =
          kv :: tl.filter (fun kv => kv.1 != c) by simp [List.filter_cons, h1]]
      by_cases hc2 : kv.1 = col
      · unfold getCell
        rw [List.find?_cons_of_pos _ (by simp [hc2]),
          List.find?_cons_of_pos _ (by simp [hc2])]
      · unfold getCell at ih ⊢
        rw [List.find?_cons_of_neg _ (by simp [hc2]),
          List.find?_cons_of_neg _ (by simp [hc2])]
        exact ih

/-- C8: every row of the loaded dataset carries non-missing coordinates,
and any failure to read or parse the source file yields the empty
dataset. -/
theorem load_data_coords_present :
    (∀ raw : DataFrame, ∀ r ∈ load_animal_data (some raw),
      getCell r "location_lat" ≠ Cell.na ∧ getCell r "location_long" ≠ Cell.na) ∧
    load_animal_data none = [] := by
  constructor
  · intro raw r hr
    have hmem : r ∈ dropnaCoords raw ∨
        ∃ r0 ∈ dropnaCoords raw, r = r0.filter (fun kv => kv.1 != "Unnamed: 0") := by
      simp only [load_animal_data] at hr
      cases h0 : hasColB (dropnaCoords raw) "Unnamed: 0" <;>
        simp only [h0, Bool.false_eq_true, if_false, if_true] at hr
      · split at hr
        · exact absurd hr (List.not_mem_nil r)
        · split at hr
          · exact absurd hr (List.not_mem_nil r)
          · exact Or.inl hr
      · split at hr
        · exact absurd hr (List.not_mem_nil r)
        · split at hr
          · exact absurd hr (List.not_mem_nil r)
          · unfold dropColDf at hr
            obtain ⟨r0, hr0, rfl⟩ := List.mem_map.1 hr
            exact Or.inr ⟨r0, hr0, rfl⟩
    have ofDropna : ∀ r1 ∈ dropnaCoords raw,
        getCell r1 "location_lat" ≠ Cell.na ∧ getCell r1 "location_long" ≠ Cell.na := by
      intro r1 hr1
      have hp := (List.mem_filter.1 hr1).2
      rw [Bool.and_eq_true] at hp
      exact ⟨isNa_false_ne (by simpa using hp.1), isNa_false_ne (by simpa using hp.2)⟩
    rcases hmem with hr' | ⟨r0, hr0, rfl⟩
    · exact ofDropna r hr'
    · rw [getCell_dropCol_ne _ _ (by decide) r0, getCell_dropCol_ne _ _ (by decide) r0]
      exact ofDropna r0 hr0
  · rfl

/-- Witness for C8: the surviving row of `rawW` carries both
coordinates. -/
theorem load_data_coords_present_witness :
    getCell rowCoordW "location_lat" ≠ Cell.na ∧ getCell rowCoordW "location_long" ≠ Cell.na :=
  load_data_coords_present.1 rawW rowCoordW (by decide)

/-- `changedCount` on a pair of cons cells. -/
theorem changedCount_cons (d e : Doc) (l1 l2 : List Doc) :
    changedCount (d :: l1) (e :: l2) = (if d ≠ e then 1 else 0) + changedCount l1 l2 := by
  unfold changedCount
  rw [List.zip_cons_cons, List.filter_cons]
  by_cases h : d = e <;> simp [h, Nat.add_comm]

/-- A list differs from itself in no position. -/
theorem changedCount_self (l : List Doc) : changedCount l l = 0 := by
  induction l with
  | nil => rfl
  | cons d tl ih => rw [changedCount_cons]; simp [ih]

/-- `update_one` reports exactly the number of stored documents it changed,
which is at most one. -/
theorem updateOneDocs_count (q vals : Doc) (docs : List Doc) :
    (updateOneDocs q vals docs).2 = changedCount docs (updateOneDocs q vals docs).1 ∧
    (updateOneDocs q vals docs).2 ≤ 1 := by
  induction docs with
  | nil => exact ⟨rfl, Nat.zero_le 1⟩
  | cons d tl ih =>
    by_cases h : matchesDoc q d
    · simp only [updateOneDocs, h, if_true]
      rw [changedCount_cons, changedCount_self]
      constructor
      · by_cases hch : applySet d vals = d
        · simp [hch]
        · rw [if_pos hch, if_pos (fun hh => hch hh.symm)]
      · by_cases hch : applySet d vals = d <;> simp [hch]
    · simp only [updateOneDocs, h, Bool.false_eq_true, if_false]
      rw [changedCount_cons]
      refine ⟨by simpa using ih.1, ih.2⟩

/-- `update_one` leaves every non-matching document unchanged in place. -/
theorem updateOneDocs_nonmatch (q vals : Doc) (docs : List Doc) (i : Nat) (d : Doc)
    (hd : docs[i]? = some d) (hm : matchesDoc q d = false) :
    (updateOneDocs q vals docs).1[i]? = some d := by
  induction docs generalizing i with
  | nil => simp at hd
  | cons d0 tl ih =>
    by_cases h : matchesDoc q d0
    · simp only [updateOneDocs, h, if_true]
      cases i with
      | zero =>
        simp only [List.getElem?_cons_zero, Option.some.injEq] at hd
        rw [← hd] at hm
        rw [hm] at h
        cases h
      | succ n =>
        simp only [List.getElem?_cons_succ] at hd ⊢
        exact hd
    · simp only [updateOneDocs, h, Bool.false_eq_true, if_false]
      cases i with
      | zero => simpa using hd
      | succ n =>
        simp only [List.getElem?_cons_succ] at hd ⊢
        exact ih n hd

/-- `update_many` reports exactly the number of stored documents it
changed. -/
theorem updateManyDocs_count (q vals : Doc) (docs : List Doc) :
    (updateManyDocs q vals docs).2 = changedCount docs (updateManyDocs q vals docs).1 := by
  unfold updateManyDocs
  dsimp only
  induction docs with
  | nil => rfl
  | cons d tl ih =>
    simp only [List.map_cons, List.filter_cons]
    rw [changedCount_cons]
    simp only [ne_eq, decide_not] at ih ⊢
    by_cases h : matchesDoc q d
    · by_cases hch : applySet d vals = d
      · simp [h, hch, ih]
      · simp [h, hch, ih, Nat.add_comm]
        rw [if_neg (fun hh => hch hh.symm)]
    · simp [h, ih]

/-- `update_many` rewrites every matching document with the `$set` result
and leaves every other document unchanged, in place. -/
theorem updateManyDocs_get (q vals : Doc) (docs : List Doc) (i : Nat) (d : Doc)
    (hd : docs[i]? = some d) :
    (updateManyDocs q vals docs).1[i]? =
      some (if matchesDoc q d then applySet d vals else d) := by
  unfold updateManyDocs
  dsimp only
  rw [List.getElem?_map, hd]
  rfl

/-- C6: on a healthy collection, `update` with `multiple=False` modifies at
most one record and only matching ones; with `multiple=True` it applies the
field replacement to every matching record and no other; in both modes the
returned integer is the number of stored documents actually modified. -/
theorem update_modified_count_spec (c : Collection) (q vals : Doc)
    (he : c.dbError = false) :
    ((AnimalShelter.update c (PyObj.dict q) (PyObj.dict vals) false).2 =
      changedCount c.docs
        (AnimalShelter.update c (PyObj.dict q) (PyObj.dict vals) false).1.docs) ∧
    (AnimalShelter.update c (PyObj.dict q) (PyObj.dict vals) false).2 ≤ 1 ∧
    (∀ (i : Nat) (d : Doc), c.docs[i]? = some d → matchesDoc q d = false →
      (AnimalShelter.update c (PyObj.dict q) (PyObj.dict vals) false).1.docs[i]? =
        some d) ∧
    ((AnimalShelter.update c (PyObj.dict q) (PyObj.dict vals) true).2 =
      changedCount c.docs
        (AnimalShelter.update c (PyObj.dict q) (PyObj.dict vals) true).1.docs) ∧
    (∀ (i : Nat) (d : Doc), c.docs[i]? = some d →
      (AnimalShelter.update c (PyObj.dict q) (PyObj.dict vals) true).1.docs[i]? =
        some (if matchesDoc q d then applySet d vals else d)) := by
  have hone : AnimalShelter.update c (PyObj.dict q) (PyObj.dict vals) false =
      ({ c with docs := (updateOneDocs q vals c.docs).1 }, (updateOneDocs q vals c.docs).2) := by
    simp [AnimalShelter.update, he]
  have hmany : AnimalShelter.update c (PyObj.dict q) (PyObj.dict vals) true =
      ({ c with docs := (updateManyDocs q vals c.docs).1 }, (updateManyDocs q vals c.docs).2) := by
    simp [AnimalShelter.update, he]
  rw [hone, hmany]
  exact ⟨(updateOneDocs_count q vals c.docs).1, (updateOneDocs_count q vals c.docs).2,
    fun i d hd hm => updateOneDocs_nonmatch q vals c.docs i d hd hm,
    updateManyDocs_count q vals c.docs,
    fun i d hd => updateManyDocs_get q vals c.docs i d hd⟩

/-- Witness for C6 on the concrete collection `cU`. -/
theorem update_modified_count_spec_witness :
    (AnimalShelter.update cU (PyObj.dict qU) (PyObj.dict valsU) false).2 ≤ 1 :=
  (update_modified_count_spec cU qU valsU rfl).2.1

/-- The freshly appended object is read back unchanged. -/
theorem getRef_append_self (h : Heap) (df : DataFrame) :
    getRef (h ++ [df]) h.length = df := by
  unfold getRef
  rw [List.getElem?_concat_length]
  rfl

/-- Reading below the append point is unaffected. -/
theorem getRef_append_lt (h : Heap) (df : DataFrame) (i : Nat) (hi : i < h.length) :
    getRef (h ++ [df]) i = getRef h i := by
  unfold getRef
  rw [List.getElem?_append_left hi]

/-- Reading the overwritten object yields the new frame. -/
theorem getRef_set_self (h : Heap) (i : Nat) (df : DataFrame) (hi : i < h.length) :
    getRef (setRef h i df) i = df := by
  unfold getRef setRef
  rw [List.getElem?_set_eq_of_lt df hi]
  rfl


/-- Overwriting one object leaves every other object unchanged. -/
theorem getRef_set_ne (h : Heap) (i j : Nat) (df : DataFrame) (hij : i ≠ j) :
    getRef (setRef h i df) j = getRef h j := by
  unfold getRef setRef
  rw [List.getElem?_set_ne hij]

/-- C10: on a non-empty frame, `prepare_dashboard_data` leaves every
previously existing frame object — in particular its input — unchanged; it
returns a fresh object, distinct from the input, holding the formatted
copy: age column added, display columns cleaned, names cleaned. -/
theorem prepare_dashboard_preserves_input (h : Heap) (r : Nat) (hr : r < h.length)
    (hne : getRef h r ≠ []) :
    (∀ i, i < h.length → getRef (prepare_dashboard_data h r).1 i = getRef h i) ∧
    (prepare_dashboard_data h r).2 = h.length ∧
    (prepare_dashboard_data h r).2 ≠ r ∧
    getRef (prepare_dashboard_data h r).1 (prepare_dashboard_data h r).2 =
      cleanNameColumn (cleanDisplayColumns (addAgeReadable (getRef h r))) := by
  have hemp : (getRef h r).isEmpty = false := by
    cases hgr : getRef h r with
    | nil => exact absurd hgr hne
    | cons a l => rfl
  have hres : prepare_dashboard_data h r =
      (setRef (setRef (setRef (h ++ [getRef h r]) h.length
          (addAgeReadable (getRef (h ++ [getRef h r]) h.length))) h.length
          (cleanDisplayColumns (getRef (setRef (h ++ [getRef h r]) h.length
            (addAgeReadable (getRef (h ++ [getRef h r]) h.length))) h.length))) h.length
          (cleanNameColumn (getRef (setRef (setRef (h ++ [getRef h r]) h.length
            (addAgeReadable (getRef (h ++ [getRef h r]) h.length))) h.length
            (cleanDisplayColumns (getRef (setRef (h ++ [getRef h r]) h.length
              (addAgeReadable (getRef (h ++ [getRef h r]) h.length))) h.length))) h.length)),
       h.length) := by
    simp only [prepare_dashboard_data, hemp, Bool.false_eq_true, if_false]
  have hlen1 : h.length < (h ++ [getRef h r]).length := by
    simp
  have hlen2 : ∀ (hp : Heap) (v : DataFrame), (setRef hp h.length v).length = hp.length := by
    intro hp v
    simp [setRef]
  have hg1 : getRef (h ++ [getRef h r]) h.length = getRef h r :=
    getRef_append_self h (getRef h r)
  rw [hres]
  refine ⟨?_, rfl, Nat.ne_of_gt hr, ?_⟩
  · intro i hi
    have hne1 : h.length ≠ i := Nat.ne_of_gt hi
    rw [getRef_set_ne _ _ _ _ hne1, getRef_set_ne _ _ _ _ hne1,
      getRef_set_ne _ _ _ _ hne1, getRef_append_lt _ _ _ hi]
  · rw [getRef_set_self _ _ _ (by rw [hlen2, hlen2]; exact hlen1)]
    rw [getRef_set_self _ _ _ (by rw [hlen2]; exact hlen1)]
    rw [getRef_set_self _ _ _ hlen1]
    rw [hg1]

/-- Witness for C10 on the one-object heap `hW`. -/
theorem prepare_dashboard_preserves_input_witness :
    getRef (prepare_dashboard_data hW 0).1 0 = getRef hW 0 :=
  (prepare_dashboard_preserves_input hW 0 (by decide) (by decide)).1 0 (by decide)

end AnimalShelterApp
